import Mathlib

/-!
Verification of the spotify2notion repository.

Shallow embedding of the three Python scripts
(spotify_to_notion_sync.py, add_cover_image_to_notion.py, script.py).

JSON-shaped dictionaries are embedded as Lean structures whose optional
fields model optionally present keys; a Python KeyError caught by the code
corresponds to a matched none. HTTP transports are embedded as explicit
transcripts: a paginated endpoint is a list of responses consumed one per
request, and a single call is a response value passed as an argument.
-/

namespace Spotify2Notion

/-! ## Data model: Spotify side (saved-tracks items) -/

/-- an artist object inside a track payload, field name. -/
structure Artist where
  name : String
deriving DecidableEq

/-- an album-art image descriptor; the url key may be absent,
so it is an Option. -/
structure ImageJson where
  url : Option String
deriving DecidableEq

/-- an album object: field name and field images (ordered list). -/
structure Album where
  name : String
  images : List ImageJson
deriving DecidableEq

/-- a track object: fields id, name, artists, album. -/
structure Track where
  id : String
  name : String
  artists : List Artist
  album : Album
deriving DecidableEq

/-- one item of the saved-tracks listing: a wrapper with key track. -/
structure SavedTrack where
  track : Track
deriving DecidableEq

/-! ## Data model: Notion side -/

/-- the value of a URL-named property of a Notion page.
ptype embeds the type key (absent key = none, a KeyError in Python, which
check_songs_by_spotify_url catches). purl embeds the url key: outer none =
key absent (KeyError, caught), inner none = JSON null. -/
structure UrlProp where
  ptype : Option String
  purl : Option (Option String)
deriving DecidableEq

/-- the properties object of a Notion page; the code only ever reads the
URL key and the Title key, so only those two are embedded. propTitle
embeds the path properties.Title.title as the list of the plain-text
contents of its rich-text segments (none = some key on the path absent). -/
structure NotionProps where
  propURL : Option UrlProp
  propTitle : Option (List String)
deriving DecidableEq

/-- a Notion page object: field id, the top-level page url read by
item.get with default (hence Option), and the properties object. -/
structure NotionItem where
  id : String
  page_url : Option String
  props : NotionProps
deriving DecidableEq

/-- Python truthiness of a string-or-null value: None and the empty
string are falsy, every other string is truthy. -/
def truthyStr : Option String → Bool
  | none => false
  | some s => s != ""

/-! ## Reconciliation (check_songs_by_spotify_url, spotify_to_notion_sync.py) -/

/-- get_page_title: reads properties.Title.title[0].text.content,
returning the fixed placeholder on KeyError or IndexError. -/
def get_page_title (item : NotionItem) : String :=
  match item.props.propTitle with
  | some (s :: _) => s
  | _ => "No Title"

/-- the value stored in notion_url_to_page for one page: id, the
top-level page url (item.get with default empty), resolved title. -/
structure PageRef where
  id : String
  notion_url : String
  title : String
deriving DecidableEq

/-- the record stored for a matched page. -/
def mkPageRef (item : NotionItem) : PageRef :=
  { id := item.id
    notion_url := item.page_url.getD ""
    title := get_page_title item }

/-- the contribution of one Notion item to the identifier index, per the
first loop of check_songs_by_spotify_url: the URL key must be present in
properties, its type field must be present (else KeyError, caught) and
equal to the string url, and its url field must be present and truthy;
then the pair of the url string and the page record is indexed. -/
def itemEntry (item : NotionItem) : Option (String × PageRef) :=
  match item.props.propURL with
  | none => none
  | some p =>
    match p.ptype with
    | none => none
    | some t =>
      if t = "url" then
        match p.purl with
        | some (some s) => if s = "" then none else some (s, mkPageRef item)
        | _ => none
      else none

/-- the ordered list of index entries produced by the first loop, one per
contributing Notion item, in input order (later duplicates come later). -/
def notionEntries (items : List NotionItem) : List (String × PageRef) :=
  items.filterMap itemEntry

/-- lookup in the notion_url_to_page dictionary built by sequential
assignment: the LAST binding of a key wins, as in a Python dict written
to in a loop. -/
def dictLookup : List (String × PageRef) → String → Option PageRef
  | [], _ => none
  | (k, v) :: rest, u =>
    match dictLookup rest u with
    | some r => some r
    | none => if k = u then some v else none

/-- a song_info dictionary as built in the second loop of
check_songs_by_spotify_url; notion_page is the key added only for
registered songs (none = key absent). -/
structure SongInfo where
  name : String
  id : String
  artists : List String
  spotify_url : String
  spotify_data : SavedTrack
  notion_page : Option PageRef
deriving DecidableEq

/-- the song_info built for one liked song before the membership test:
name, id, artist names, and the canonical spotify url built by the
f-string from the track id. -/
def mkSongInfo (song : SavedTrack) : SongInfo :=
  { name := song.track.name
    id := song.track.id
    artists := song.track.artists.map Artist.name
    spotify_url := "https://open.spotify.com/track/" ++ song.track.id
    spotify_data := song
    notion_page := none }

/-- the second loop of check_songs_by_spotify_url: each liked song is
appended to registered (with the notion_page key set from the dictionary)
when its canonical url is in the url set, else to not_registered. -/
def partitionGo (urls : List String) (dict : List (String × PageRef)) :
    List SavedTrack → List SongInfo × List SongInfo
  | [] => ([], [])
  | song :: rest =>
    let info := mkSongInfo song
    let prev := partitionGo urls dict rest
    if urls.contains info.spotify_url then
      ({ info with notion_page := dictLookup dict info.spotify_url } :: prev.1, prev.2)
    else
      (prev.1, info :: prev.2)

/-- check_songs_by_spotify_url: builds the url set and the url-to-page
dictionary from the Notion items, then partitions the liked songs. The
returned pair is (registered, not_registered). -/
def check_songs_by_spotify_url (liked_songs : List SavedTrack)
    (notion_items : List NotionItem) : List SongInfo × List SongInfo :=
  partitionGo ((notionEntries notion_items).map Prod.fst)
    (notionEntries notion_items) liked_songs

/-- whether a liked song passes the membership test of the second loop. -/
def songMatches (notion_items : List NotionItem) (song : SavedTrack) : Bool :=
  ((notionEntries notion_items).map Prod.fst).contains (mkSongInfo song).spotify_url

/-- the registered-side song_info for a matched song. -/
def enrichSong (notion_items : List NotionItem) (song : SavedTrack) : SongInfo :=
  { mkSongInfo song with
      notion_page := dictLookup (notionEntries notion_items) (mkSongInfo song).spotify_url }

/-! ## Paginated fetchers -/

/-- one response of the Notion database query endpoint, as consumed by
fetch_notion_pages of spotify_to_notion_sync.py: status code, the results
list, the has_more flag (read with default false) and the next_cursor
value (read as optional). -/
structure NotionResp where
  status : Nat
  results : List NotionItem
  has_more : Bool
  next_cursor : Option String
deriving DecidableEq

/-- the while loop of fetch_notion_pages (spotify_to_notion_sync.py) over
a transcript of transport responses, one consumed per request; returns
the accumulated items and the number of requests issued. A non-200
response breaks the loop with the items accumulated so far. -/
def fetchNotionAux (acc : List NotionItem) (calls : Nat) :
    List NotionResp → List NotionItem × Nat
  | [] => (acc, calls)
  | r :: rest =>
    if r.status = 200 then
      if r.has_more then fetchNotionAux (acc ++ r.results) (calls + 1) rest
      else (acc ++ r.results, calls + 1)
    else (acc, calls + 1)

/-- fetch_notion_pages of spotify_to_notion_sync.py over a response
transcript. -/
def fetch_notion_pages (responses : List NotionResp) : List NotionItem × Nat :=
  fetchNotionAux [] 0 responses

/-- the JSON body read by fetch_notion_pages of script.py (and of
add_cover_image_to_notion.py), which performs no status check and reads
data with the results key possibly absent: an error body carries no
results key, modeled as none. -/
structure QueryBody where
  results : Option (List NotionItem)
  has_more : Bool
  next_cursor : Option String
deriving DecidableEq

/-- the while loop of fetch_notion_pages in script.py: no status check;
reading the results key of a body lacking it raises KeyError, which
nothing catches, so the function propagates the exception (Except.error). -/
def fetchScriptAux (acc : List NotionItem) :
    List QueryBody → Except String (List NotionItem)
  | [] => .ok acc
  | b :: rest =>
    match b.results with
    | none => .error "KeyError: results"
    | some items =>
      if b.has_more then fetchScriptAux (acc ++ items) rest
      else .ok (acc ++ items)

/-- fetch_notion_pages of script.py / add_cover_image_to_notion.py over a
transcript of response bodies. -/
def fetch_notion_pages_script (bodies : List QueryBody) :
    Except String (List NotionItem) :=
  fetchScriptAux [] bodies

/-- one page of the Spotify saved-tracks listing as consumed by
get_liked_songs: the items list and the next link (null when the listing
is exhausted). -/
structure LikedPage where
  items : List SavedTrack
  next : Option String
deriving DecidableEq

/-- the loop of get_liked_songs over a transcript of pages, one consumed
per request (the first page comes from the initial call, each further
page from one sp.next call); returns the accumulated items and the number
of requests issued. The loop continues only while the next link of the
current page is truthy. -/
def getLikedAux (acc : List SavedTrack) (calls : Nat) :
    List LikedPage → List SavedTrack × Nat
  | [] => (acc, calls)
  | p :: rest =>
    if truthyStr p.next then getLikedAux (acc ++ p.items) (calls + 1) rest
    else (acc ++ p.items, calls + 1)

/-- get_liked_songs over a page transcript. -/
def get_liked_songs (pages : List LikedPage) : List SavedTrack × Nat :=
  getLikedAux [] 0 pages

/-! ## Cursor-level state machine of the fetch_notion_pages loop -/

/-- the mutable state of the fetch_notion_pages while loop:
payload_cursor is the start_cursor key currently in the request payload
(none = key absent, the initial empty payload), all_items is the
accumulator, has_more the loop condition (false also encodes the break on
a non-200 response). -/
structure FetchState where
  payload_cursor : Option String
  all_items : List NotionItem
  has_more : Bool
deriving DecidableEq

/-- one iteration of the fetch_notion_pages while loop against a
deterministic endpoint (a function from the sent start_cursor to the
response). The payload keeps its previous start_cursor unless the
response carries a truthy next_cursor, because the code only ever assigns
payload under a truthiness test and never deletes the key. -/
def fetchStep (endpoint : Option String → NotionResp) (s : FetchState) : FetchState :=
  if s.has_more then
    let r := endpoint s.payload_cursor
    if r.status = 200 then
      { payload_cursor :=
          match r.next_cursor with
          | some c => if c = "" then s.payload_cursor else some c
          | none => s.payload_cursor
        all_items := s.all_items ++ r.results
        has_more := r.has_more }
    else { s with has_more := false }
  else s

/-! ## Identity extraction (extract_track_id, script.py and
add_cover_image_to_notion.py, identical in both) -/

/-- Python str.split with a one-character separator, on the character
list of the string: empty input gives one empty segment, each separator
occurrence starts a new segment; executable so concrete inputs evaluate. -/
def splitChar (sep : Char) : List Char → List (List Char)
  | [] => [[]]
  | c :: rest =>
    let r := splitChar sep rest
    if c = sep then [] :: r
    else
      match r with
      | [] => [[c]]
      | s :: ss => (c :: s) :: ss

/-- url.split with the slash separator, as a list of strings. -/
def pySplitSlash (s : String) : List String :=
  (splitChar '/' s.data).map String.mk

/-- the last element of url.split, the Python index -1 (split on a
nonempty separator never yields an empty list, so the default is inert). -/
def lastSplitSeg (s : String) : String :=
  (pySplitSlash s).getLastD ""

/-- extract_track_id: reads properties.URL.url (KeyError at any step is
caught and yields None); a truthy value is split on the slash and the
last segment returned; a falsy value falls through to None. -/
def extract_track_id (item : NotionItem) : Option String :=
  match item.props.propURL with
  | none => none
  | some p =>
    match p.purl with
    | some (some url) => if url = "" then none else some (lastSplitSeg url)
    | _ => none

/-! ## Album-art lookup (get_album_art, script.py and
add_cover_image_to_notion.py) and the backfill loop body -/

/-- the album object of the track-lookup JSON body: the images key may be
absent (read with a default), hence Option. -/
structure AlbumBody where
  images : Option (List ImageJson)
deriving DecidableEq

/-- the track-lookup response as read by get_album_art: status code and
the album key of the body (read with a default, hence Option). -/
structure TrackBody where
  status : Nat
  album : Option AlbumBody
deriving DecidableEq

/-- get_album_art: on status 200 it evaluates the chain
json.get(album, empty).get(images, one-empty-image-default)[0].get(url).
The defaults apply only when the respective key is ABSENT; when the
images key is present and holds the empty list, indexing [0] raises an
IndexError that nothing catches, embedded as Except.error. Otherwise the
url key of the first image is returned (none when that key is absent).
On a non-200 status the function returns None. -/
def get_album_art (resp : TrackBody) : Except String (Option String) :=
  if resp.status = 200 then
    let images : List ImageJson :=
      match resp.album with
      | none => [{ url := none }]
      | some a =>
        match a.images with
        | none => [{ url := none }]
        | some l => l
    match images with
    | [] => .error "IndexError"
    | img :: _ => .ok img.url
  else .ok none

/-- the body of the per-row loop of main in
add_cover_image_to_notion.py, restricted to the calls it issues: given
the page id and the looked-up album_art_url, a truthy url issues exactly
one cover-update call for that page, a falsy one issues none (the row is
skipped). -/
def backfillRowCalls (page_id : String) (album_art_url : Option String) :
    List (String × String) :=
  match album_art_url with
  | some s => if s = "" then [] else [(page_id, s)]
  | none => []

/-! ## Row creation (create_notion_page_for_song and
add_cover_image_to_notion_page, spotify_to_notion_sync.py) -/

/-- add_cover_image_to_notion_page: issues the PATCH and returns whether
its status was 200; the transport outcome is the respStatus argument. -/
def add_cover_image_to_notion_page (page_id : String) (cover_url : String)
    (respStatus : Nat) : Bool :=
  if respStatus = 200 then
    let _ := page_id
    let _ := cover_url
    true
  else false

/-- the response of the page-creation POST: status code and the id of
the created page (read from the body on success). -/
structure CreateResponse where
  status : Nat
  id : String
deriving DecidableEq

/-- the cover_url computed at the top of create_notion_page_for_song:
spotify_data.track.album.images[0].url with KeyError and IndexError
caught to None (empty images list, or first image lacking the url key). -/
def songCoverUrl (song : SongInfo) : Option String :=
  match song.spotify_data.track.album.images with
  | [] => none
  | img :: _ => img.url

/-- the observable outcome of one create_notion_page_for_song run: the
returned boolean, the cover-update call issued (page id and url), if
any, and the ignored boolean result of that call, if it was made. -/
structure CreateOutcome where
  ret : Bool
  coverCall : Option (String × String)
  coverResult : Option Bool
deriving DecidableEq

/-- create_notion_page_for_song: computes cover_url, issues the creation
POST (whose transport outcome is the create_response argument); on
status 200 it returns True, first issuing the cover-update call when
cover_url is truthy (the result of that call is observed and dropped);
on any other status it returns False and issues no cover call. The
coverStatus argument is the transport outcome of the cover-update PATCH. -/
def create_notion_page_for_song (song : SongInfo)
    (create_response : CreateResponse) (coverStatus : Nat) : CreateOutcome :=
  let cover_url := songCoverUrl song
  if create_response.status = 200 then
    match cover_url with
    | some u =>
      if u = "" then { ret := true, coverCall := none, coverResult := none }
      else
        { ret := true
          coverCall := some (create_response.id, u)
          coverResult := some (add_cover_image_to_notion_page create_response.id u coverStatus) }
    | none => { ret := true, coverCall := none, coverResult := none }
  else { ret := false, coverCall := none, coverResult := none }

/-! ## Concrete example data (used to instantiate the theorems) -/

/-- a saved track with one album-art image. -/
def trackA : SavedTrack :=
  { track :=
      { id := "abc", name := "Song A", artists := [{ name := "Artist1" }]
        album := { name := "Album1", images := [{ url := some "u1" }] } } }

/-- a saved track with no album-art images. -/
def trackB : SavedTrack :=
  { track :=
      { id := "xyz", name := "Song B", artists := [{ name := "Artist2" }]
        album := { name := "Album2", images := [] } } }

/-- a third saved track. -/
def trackC : SavedTrack :=
  { track :=
      { id := "pqr", name := "Song C", artists := [{ name := "Artist3" }]
        album := { name := "Album3", images := [] } } }

/-- a Notion item registering the canonical url of trackA. -/
def itemA : NotionItem :=
  { id := "page1"
    page_url := some "https://notion.so/page1"
    props :=
      { propURL := some
          { ptype := some "url"
            purl := some (some "https://open.spotify.com/track/abc") }
        propTitle := some ["Song A"] } }

/-- a second Notion item carrying the same url as itemA. -/
def itemADup : NotionItem :=
  { id := "page2"
    page_url := some "https://notion.so/page2"
    props :=
      { propURL := some
          { ptype := some "url"
            purl := some (some "https://open.spotify.com/track/abc") }
        propTitle := some ["Song A again"] } }

/-- a Notion item with no URL property at all. -/
def itemNoUrl : NotionItem :=
  { id := "pageX", page_url := none
    props := { propURL := none, propTitle := none } }

/-- a successful non-final page of the Notion query listing. -/
def respOk : NotionResp :=
  { status := 200, results := [itemA], has_more := true, next_cursor := some "c2" }

/-- a successful final page of the Notion query listing. -/
def respLast : NotionResp :=
  { status := 200, results := [itemNoUrl], has_more := false, next_cursor := none }

/-- a non-success response of the Notion query listing. -/
def respBad : NotionResp :=
  { status := 500, results := [], has_more := false, next_cursor := none }

/-- a successful non-final body for the script-variant fetch. -/
def bodyOk : QueryBody :=
  { results := some [itemA], has_more := true, next_cursor := some "c2" }

/-- an error body for the script-variant fetch: no results key. -/
def bodyBad : QueryBody :=
  { results := none, has_more := false, next_cursor := none }

/-- a non-final page of the liked-songs listing. -/
def pageA : LikedPage := { items := [trackA], next := some "next1" }

/-- the final page of the liked-songs listing. -/
def pageLast : LikedPage := { items := [trackB], next := none }

/-- a creation response with status 200. -/
def crOK : CreateResponse := { status := 200, id := "p9" }

/-- a successful track-lookup response with one image. -/
def respTrackOk : TrackBody :=
  { status := 200, album := some { images := some [{ url := some "u1" }] } }

/-- an endpoint answering every cursor with a successful page reporting
more data and a null next_cursor. -/
def loopEndpoint : Option String → NotionResp :=
  fun _ => { status := 200, results := [], has_more := true, next_cursor := none }

/-- a running fetch state with a cursor already in the payload. -/
def loopState : FetchState :=
  { payload_cursor := some "c0", all_items := [], has_more := true }

/-! ## Helper lemmas -/

/-- closed form of the second loop of check_songs_by_spotify_url. -/
theorem partitionGo_eq (urls : List String) (dict : List (String × PageRef)) :
    ∀ L : List SavedTrack,
      partitionGo urls dict L =
        ((L.filter fun s => urls.contains (mkSongInfo s).spotify_url).map
            (fun s => { mkSongInfo s with
                notion_page := dictLookup dict (mkSongInfo s).spotify_url }),
         (L.filter fun s => !(urls.contains (mkSongInfo s).spotify_url)).map mkSongInfo)
  | [] => rfl
  | s :: rest => by
    have ih := partitionGo_eq urls dict rest
    simp only [partitionGo, ih, List.filter_cons]
    by_cases h : (mkSongInfo s).spotify_url ∈ urls
    · simp [h]
    · simp [h]

/-- closed form of check_songs_by_spotify_url. -/
theorem check_songs_eq (L : List SavedTrack) (R : List NotionItem) :
    check_songs_by_spotify_url L R =
      ((L.filter (songMatches R)).map (enrichSong R),
       (L.filter fun s => !(songMatches R s)).map mkSongInfo) := by
  unfold check_songs_by_spotify_url
  rw [partitionGo_eq]
  rfl

/-- the registered-side record determines the underlying saved track. -/
theorem enrichSong_inj (R : List NotionItem) {s t : SavedTrack}
    (h : enrichSong R s = enrichSong R t) : s = t := by
  have := congrArg SongInfo.spotify_data h
  simpa [enrichSong, mkSongInfo] using this

/-- membership in the registered partition. -/
theorem mem_registered_iff (L : List SavedTrack) (R : List NotionItem) (s : SavedTrack) :
    enrichSong R s ∈ (check_songs_by_spotify_url L R).1 ↔ s ∈ L ∧ songMatches R s = true := by
  rw [check_songs_eq]
  constructor
  · intro h
    obtain ⟨t, ht, hts⟩ := List.mem_map.mp h
    obtain rfl := enrichSong_inj R hts
    exact ⟨(List.mem_filter.mp ht).1, (List.mem_filter.mp ht).2⟩
  · intro ⟨h1, h2⟩
    exact List.mem_map.mpr ⟨s, List.mem_filter.mpr ⟨h1, h2⟩, rfl⟩

/-- the plain record determines the underlying saved track. -/
theorem mkSongInfo_inj {s t : SavedTrack} (h : mkSongInfo s = mkSongInfo t) : s = t := by
  have := congrArg SongInfo.spotify_data h
  simpa [mkSongInfo] using this

/-- membership in the not_registered partition. -/
theorem mem_not_registered_iff (L : List SavedTrack) (R : List NotionItem) (s : SavedTrack) :
    mkSongInfo s ∈ (check_songs_by_spotify_url L R).2 ↔ s ∈ L ∧ songMatches R s = false := by
  rw [check_songs_eq]
  constructor
  · intro h
    obtain ⟨t, ht, hts⟩ := List.mem_map.mp h
    obtain rfl := mkSongInfo_inj hts
    refine ⟨(List.mem_filter.mp ht).1, ?_⟩
    have := (List.mem_filter.mp ht).2
    simpa using this
  · intro ⟨h1, h2⟩
    exact List.mem_map.mpr ⟨s, List.mem_filter.mpr ⟨h1, by simp [h2]⟩, rfl⟩

/-- a Notion item carries the url value u in a correctly typed URL
property: the condition under which the claims place it in the index. -/
def hasUrlValue (item : NotionItem) (u : String) : Prop :=
  ∃ p, item.props.propURL = some p ∧ p.ptype = some "url" ∧ p.purl = some (some u)

/-- the index entry of an item is exactly the truthy url value of its
correctly typed URL property, paired with its page record. -/
theorem itemEntry_some_iff (item : NotionItem) (u : String) (hu : u ≠ "") :
    (∃ r, itemEntry item = some (u, r)) ↔ hasUrlValue item u := by
  rcases hp : item.props.propURL with _ | p
  · simp [itemEntry, hasUrlValue, hp]
  · rcases ht : p.ptype with _ | t
    · simp [itemEntry, hasUrlValue, hp, ht]
    · by_cases htu : t = "url"
      · subst htu
        rcases hq : p.purl with _ | ⟨_ | s⟩
        · simp [itemEntry, hasUrlValue, hp, ht, hq]
        · simp [itemEntry, hasUrlValue, hp, ht, hq]
        · by_cases hs : s = ""
          · subst hs
            simp [itemEntry, hasUrlValue, hp, ht, hq, Ne.symm hu]
          · simp [itemEntry, hasUrlValue, hp, ht, hq, hs, eq_comm]
      · simp [itemEntry, hasUrlValue, hp, ht, htu]

/-- the canonical track url is never the empty string. -/
theorem canonical_ne_empty (i : String) : ("https://open.spotify.com/track/" ++ i) ≠ "" := by
  intro h
  have h2 := congrArg String.length h
  rw [String.length_append] at h2
  rw [show ("https://open.spotify.com/track/" : String).length = 31 from rfl] at h2
  rw [show ("" : String).length = 0 from rfl] at h2
  omega

/-- membership of a nonempty url in the url set is existence of a
contributing Notion item. -/
theorem songMatches_iff (R : List NotionItem) (song : SavedTrack) :
    songMatches R song = true ↔
      ∃ item ∈ R, hasUrlValue item ((mkSongInfo song).spotify_url) := by
  have hu : (mkSongInfo song).spotify_url ≠ "" := canonical_ne_empty song.track.id
  unfold songMatches
  rw [List.elem_iff]
  constructor
  · intro h
    obtain ⟨⟨u, r⟩, he, hfst⟩ := List.mem_map.mp h
    obtain ⟨item, hitem, hentry⟩ := List.mem_filterMap.mp he
    subst hfst
    exact ⟨item, hitem, (itemEntry_some_iff item _ hu).mp ⟨r, hentry⟩⟩
  · intro ⟨item, hitem, hval⟩
    obtain ⟨r, hr⟩ := (itemEntry_some_iff item _ hu).mpr hval
    exact List.mem_map.mpr ⟨((mkSongInfo song).spotify_url, r),
      List.mem_filterMap.mpr ⟨item, hitem, hr⟩, rfl⟩

/-! ## Claim C1 -/

/-- C1: for every liked-track list L and Notion-item list R the
reconciliation is total and exhaustive: the lengths of registered and
not_registered sum to the length of L, the underlying saved tracks of the
two partitions together form a permutation of L (no track dropped or
duplicated), and the two partitions are disjoint by track id. -/
theorem check_songs_partition_total (L : List SavedTrack) (R : List NotionItem) :
    (check_songs_by_spotify_url L R).1.length + (check_songs_by_spotify_url L R).2.length
        = L.length
    ∧ ((check_songs_by_spotify_url L R).1.map SongInfo.spotify_data
        ++ (check_songs_by_spotify_url L R).2.map SongInfo.spotify_data).Perm L
    ∧ ∀ a ∈ (check_songs_by_spotify_url L R).1,
        ∀ b ∈ (check_songs_by_spotify_url L R).2, a.id ≠ b.id := by
  have hperm : ((check_songs_by_spotify_url L R).1.map SongInfo.spotify_data
      ++ (check_songs_by_spotify_url L R).2.map SongInfo.spotify_data).Perm L := by
    rw [check_songs_eq]
    simp only [List.map_map]
    have h1 : SongInfo.spotify_data ∘ enrichSong R = fun s => s := by
      funext s; rfl
    have h2 : SongInfo.spotify_data ∘ mkSongInfo = fun s => s := by
      funext s; rfl
    rw [h1, h2, List.map_id', List.map_id']
    exact List.filter_append_perm _ L
  refine ⟨?_, hperm, ?_⟩
  · have := hperm.length_eq
    simpa [List.length_append] using this
  · intro a ha b hb hid
    rw [check_songs_eq] at ha hb
    obtain ⟨s, hs, rfl⟩ := List.mem_map.mp ha
    obtain ⟨t, ht, rfl⟩ := List.mem_map.mp hb
    have hsp : songMatches R s = true := (List.mem_filter.mp hs).2
    have htp : songMatches R t = false := by
      have := (List.mem_filter.mp ht).2
      simpa using this
    have hsid : s.track.id = t.track.id := by
      simpa [enrichSong, mkSongInfo] using hid
    have hurl : (mkSongInfo s).spotify_url = (mkSongInfo t).spotify_url := by
      simp [mkSongInfo, hsid]
    rw [songMatches, hurl, ← songMatches] at hsp
    rw [hsp] at htp
    cases htp

/-! ## Claim C2 -/

/-- C2: for every liked track, its canonical url is the literal spotify
track prefix followed by the track id, and the track lands in the
registered partition exactly when some input Notion item carries that url
in a URL property of type url by exact string equality; otherwise it
lands in not_registered. -/
theorem check_songs_registered_iff (L : List SavedTrack) (R : List NotionItem)
    (song : SavedTrack) (hs : song ∈ L) :
    (mkSongInfo song).spotify_url = "https://open.spotify.com/track/" ++ song.track.id
    ∧ (enrichSong R song ∈ (check_songs_by_spotify_url L R).1
        ↔ ∃ item ∈ R, hasUrlValue item ((mkSongInfo song).spotify_url))
    ∧ ((¬ ∃ item ∈ R, hasUrlValue item ((mkSongInfo song).spotify_url)) →
        mkSongInfo song ∈ (check_songs_by_spotify_url L R).2) := by
  refine ⟨rfl, ?_, ?_⟩
  · rw [mem_registered_iff, ← songMatches_iff]
    exact ⟨fun h => h.2, fun h => ⟨hs, h⟩⟩
  · intro hno
    rw [mem_not_registered_iff]
    refine ⟨hs, ?_⟩
    by_contra h
    exact hno ((songMatches_iff R song).mp (by simpa using h))

/-! ## Claim C9 -/

/-- C9: the reconciliation preserves relative input order inside each
partition: for tracks a then b occurring in that order in the input, if
both match the index they occur in that order in registered, and if
neither matches they occur in that order in not_registered. -/
theorem check_songs_order_preserved (L : List SavedTrack) (R : List NotionItem)
    (a b : SavedTrack) (hab : [a, b].Sublist L) :
    (songMatches R a = true → songMatches R b = true →
      [enrichSong R a, enrichSong R b].Sublist (check_songs_by_spotify_url L R).1)
    ∧ (songMatches R a = false → songMatches R b = false →
      [mkSongInfo a, mkSongInfo b].Sublist (check_songs_by_spotify_url L R).2) := by
  constructor
  · intro hpa hpb
    rw [check_songs_eq]
    have h1 := List.Sublist.filter (songMatches R) hab
    rw [show [a, b].filter (songMatches R) = [a, b] by
      simp [List.filter_cons, hpa, hpb]] at h1
    simpa using List.Sublist.map (enrichSong R) h1
  · intro hpa hpb
    rw [check_songs_eq]
    have h1 := List.Sublist.filter (fun s => !(songMatches R s)) hab
    rw [show [a, b].filter (fun s => !(songMatches R s)) = [a, b] by
      simp [List.filter_cons, hpa, hpb]] at h1
    simpa using List.Sublist.map mkSongInfo h1

/-! ## Claim C4 -/

/-- a Notion item whose URL property is missing, wrong-typed (type field
absent or not the string url), or empty (url field absent, null, or the
empty string), as enumerated by the claim. -/
def malformedURL (item : NotionItem) : Prop :=
  item.props.propURL = none
  ∨ (∃ p, item.props.propURL = some p ∧ p.ptype ≠ some "url")
  ∨ (∃ p, item.props.propURL = some p ∧
      (p.purl = none ∨ p.purl = some none ∨ p.purl = some (some "")))

/-- lookup distributes over appended dictionaries, preferring the later
part. -/
theorem dictLookup_append (xs ys : List (String × PageRef)) (u : String) :
    dictLookup (xs ++ ys) u =
      match dictLookup ys u with
      | some r => some r
      | none => dictLookup xs u := by
  induction xs with
  | nil => simp only [List.nil_append]; cases dictLookup ys u <;> rfl
  | cons kv rest ih =>
    obtain ⟨k, v⟩ := kv
    have hstep : dictLookup (((k, v) :: rest) ++ ys) u =
        match dictLookup (rest ++ ys) u with
        | some r => some r
        | none => if k = u then some v else none := rfl
    rw [hstep, ih]
    rcases h1 : dictLookup ys u with _ | r1 <;> rfl

/-- lookup misses when no binding carries the key. -/
theorem dictLookup_eq_none (m : List (String × PageRef)) (u : String)
    (h : ∀ kv ∈ m, kv.1 ≠ u) : dictLookup m u = none := by
  induction m with
  | nil => rfl
  | cons kv rest ih =>
    obtain ⟨k, v⟩ := kv
    have hk : k ≠ u := h (k, v) (List.mem_cons_self _ _)
    have hr := ih fun kv hkv => h kv (List.mem_cons_of_mem _ hkv)
    simp [dictLookup, hr, hk]

/-- C4: an item whose URL property is missing, wrong-typed or empty
contributes no entry to the identifier index, and inserting such an item
anywhere in the Notion list leaves the whole reconciliation result
unchanged (so the pass never fails on it); and when a later item in the
list carries the same url key as an earlier one, the dictionary maps the
url to the later item (last-write-wins: the last contributor of a url
determines the stored page record). -/
theorem url_index_malformed_lww :
    (∀ item, malformedURL item → itemEntry item = none)
    ∧ (∀ (L : List SavedTrack) (l1 l2 : List NotionItem) (bad : NotionItem),
        malformedURL bad →
        check_songs_by_spotify_url L (l1 ++ bad :: l2)
          = check_songs_by_spotify_url L (l1 ++ l2))
    ∧ (∀ (l1 l2 : List NotionItem) (b : NotionItem) (u : String) (r : PageRef),
        itemEntry b = some (u, r) →
        (∀ c ∈ l2, ∀ v, itemEntry c ≠ some (u, v)) →
        dictLookup (notionEntries (l1 ++ b :: l2)) u = some r) := by
  have hnone : ∀ item, malformedURL item → itemEntry item = none := by
    intro item h
    rcases h with h | ⟨p, hp, ht⟩ | ⟨p, hp, hq⟩
    · simp [itemEntry, h]
    · rcases htv : p.ptype with _ | t
      · simp [itemEntry, hp, htv]
      · have : t ≠ "url" := by
          intro he; exact ht (by rw [htv, he])
        simp [itemEntry, hp, htv, this]
    · rcases htv : p.ptype with _ | t
      · simp [itemEntry, hp, htv]
      · rcases hq with hq | hq | hq <;> simp [itemEntry, hp, htv, hq]
  refine ⟨hnone, ?_, ?_⟩
  · intro L l1 l2 bad hbad
    have he : notionEntries (l1 ++ bad :: l2) = notionEntries (l1 ++ l2) := by
      simp [notionEntries, List.filterMap_append, List.filterMap_cons, hnone bad hbad]
    simp [check_songs_by_spotify_url, he]
  · intro l1 l2 b u r hb hlater
    have he : notionEntries (l1 ++ b :: l2)
        = notionEntries l1 ++ (u, r) :: notionEntries l2 := by
      simp [notionEntries, List.filterMap_append, List.filterMap_cons, hb]
    rw [he, dictLookup_append]
    have h2 : dictLookup (notionEntries l2) u = none := by
      apply dictLookup_eq_none
      intro kv hkv hku
      obtain ⟨c, hc, hce⟩ := List.mem_filterMap.mp hkv
      exact hlater c hc kv.2 (by rw [hce, ← hku])
    simp [dictLookup, h2]

/-! ## Pagination lemmas -/

/-- the sync-script fetch loop walks through a prefix of successful
pages that all report more data, accumulating their items and counting
one request per page. -/
theorem fetchNotionAux_append_ok (rs : List NotionResp)
    (h : ∀ x ∈ rs, x.status = 200 ∧ x.has_more = true) :
    ∀ (acc : List NotionItem) (c : Nat) (rest : List NotionResp),
      fetchNotionAux acc c (rs ++ rest)
        = fetchNotionAux (acc ++ (rs.map NotionResp.results).flatten) (c + rs.length) rest := by
  induction rs with
  | nil => intro acc c rest; simp
  | cons r rs ih =>
    intro acc c rest
    have hr := h r (List.mem_cons_self _ _)
    have hrest := fun x hx => h x (List.mem_cons_of_mem _ hx)
    have hstep : fetchNotionAux acc c ((r :: rs) ++ rest)
        = fetchNotionAux (acc ++ r.results) (c + 1) (rs ++ rest) := by
      simp [fetchNotionAux, hr.1, hr.2]
    rw [hstep, ih hrest]
    have hn : c + 1 + rs.length = c + (rs.length + 1) := by omega
    simp [hn]

/-- the liked-songs loop walks through a prefix of pages whose next
links are truthy, accumulating their items and counting one request per
page. -/
theorem getLikedAux_append_ok (ps : List LikedPage)
    (h : ∀ x ∈ ps, truthyStr x.next = true) :
    ∀ (acc : List SavedTrack) (c : Nat) (rest : List LikedPage),
      getLikedAux acc c (ps ++ rest)
        = getLikedAux (acc ++ (ps.map LikedPage.items).flatten) (c + ps.length) rest := by
  induction ps with
  | nil => intro acc c rest; simp
  | cons p ps ih =>
    intro acc c rest
    have hp := h p (List.mem_cons_self _ _)
    have hrest := fun x hx => h x (List.mem_cons_of_mem _ hx)
    have hstep : getLikedAux acc c ((p :: ps) ++ rest)
        = getLikedAux (acc ++ p.items) (c + 1) (ps ++ rest) := by
      simp [getLikedAux, hp]
    rw [hstep, ih hrest]
    have hn : c + 1 + ps.length = c + (ps.length + 1) := by omega
    simp [hn]

/-- the script-variant fetch loop walks through a prefix of bodies that
carry a results key and report more data. -/
theorem fetchScriptAux_append_ok (bs : List QueryBody)
    (h : ∀ x ∈ bs, x.results.isSome ∧ x.has_more = true) :
    ∀ (acc : List NotionItem) (rest : List QueryBody),
      fetchScriptAux acc (bs ++ rest)
        = fetchScriptAux (acc ++ (bs.map fun b => b.results.getD []).flatten) rest := by
  induction bs with
  | nil => intro acc rest; simp
  | cons b bs ih =>
    intro acc rest
    have hb := h b (List.mem_cons_self _ _)
    have hrest := fun x hx => h x (List.mem_cons_of_mem _ hx)
    obtain ⟨l, hl⟩ := Option.isSome_iff_exists.mp hb.1
    have hstep : fetchScriptAux acc ((b :: bs) ++ rest)
        = fetchScriptAux (acc ++ l) (bs ++ rest) := by
      simp [fetchScriptAux, hl, hb.2]
    rw [hstep, ih hrest]
    simp [hl]

/-! ## Claim C5 -/

/-- C5: against a simulated listing of N pages whose last page reports
has_more false (respectively a null next link for the liked-songs
listing), the fetcher returns exactly the concatenation of the items of
all N pages, in order, and issues exactly N requests. -/
theorem fetch_pagination_exact (rs : List NotionResp) (r : NotionResp)
    (ps : List LikedPage) (p : LikedPage)
    (hrs : ∀ x ∈ rs, x.status = 200 ∧ x.has_more = true)
    (hr2 : r.status = 200) (hrm : r.has_more = false)
    (hps : ∀ x ∈ ps, truthyStr x.next = true) (hp : p.next = none) :
    fetch_notion_pages (rs ++ [r])
        = (((rs ++ [r]).map NotionResp.results).flatten, rs.length + 1)
    ∧ get_liked_songs (ps ++ [p])
        = (((ps ++ [p]).map LikedPage.items).flatten, ps.length + 1) := by
  constructor
  · unfold fetch_notion_pages
    rw [fetchNotionAux_append_ok rs hrs]
    simp [fetchNotionAux, hr2, hrm]
  · unfold get_liked_songs
    rw [getLikedAux_append_ok ps hps]
    have : truthyStr p.next = false := by rw [hp]; rfl
    simp [getLikedAux, this]

/-! ## Claim C3 (corrected) -/

/-- C3 counterexample: the claim covers the fetch_notion_pages of
script.py as well, but that variant performs no status check; on a page
sequence whose first response is a non-success error body (which carries
no results key), it raises a KeyError instead of returning the empty
concatenation of the zero preceding pages. -/
theorem fetch_script_error_counterexample :
    fetch_notion_pages_script [{ results := none, has_more := false, next_cursor := none }]
        = Except.error "KeyError: results"
    ∧ fetch_notion_pages_script [{ results := none, has_more := false, next_cursor := none }]
        ≠ Except.ok ([] : List NotionItem) :=
  ⟨rfl, fun h => Except.noConfusion h⟩

/-- C3 amended: when the listing endpoint returns a non-success response
on page k, the fetch_notion_pages of spotify_to_notion_sync.py returns
exactly the concatenation of the items of pages 1 to k-1 without raising;
the fetch_notion_pages variant of script.py and
add_cover_image_to_notion.py instead propagates a KeyError when the
non-success body lacks the results key. -/
theorem fetch_partial_on_error
    (pre : List NotionResp) (bad : NotionResp) (rest : List NotionResp)
    (hpre : ∀ x ∈ pre, x.status = 200 ∧ x.has_more = true) (hbad : bad.status ≠ 200)
    (preB : List QueryBody) (badB : QueryBody) (restB : List QueryBody)
    (hpreB : ∀ x ∈ preB, x.results.isSome ∧ x.has_more = true)
    (hbadB : badB.results = none) :
    (fetch_notion_pages (pre ++ bad :: rest)).1 = (pre.map NotionResp.results).flatten
    ∧ fetch_notion_pages_script (preB ++ badB :: restB)
        = Except.error "KeyError: results" := by
  constructor
  · unfold fetch_notion_pages
    rw [fetchNotionAux_append_ok pre hpre]
    simp [fetchNotionAux, hbad]
  · unfold fetch_notion_pages_script
    rw [fetchScriptAux_append_ok preB hpreB]
    simp [fetchScriptAux, hbadB]

/-! ## Claim C10 -/

/-- C10: the fetch_notion_pages loop halts right after any response
reporting has_more false (and a halted loop stays halted), so it
terminates when some response in the sequence reports has_more false;
but when the deterministic endpoint answers the current cursor with a
successful response carrying has_more true and a null next_cursor, the
start_cursor already in the payload is never removed, the same request is
re-issued forever, and the loop never reaches a halted state. -/
theorem fetch_cursor_loop (e : Option String → NotionResp) (s : FetchState) :
    (s.has_more = true → (e s.payload_cursor).has_more = false →
      (fetchStep e s).has_more = false)
    ∧ (s.has_more = false → fetchStep e s = s)
    ∧ (s.has_more = true → (e s.payload_cursor).status = 200 →
        (e s.payload_cursor).has_more = true → (e s.payload_cursor).next_cursor = none →
        ∀ n : Nat, ((fetchStep e)^[n] s).has_more = true
          ∧ ((fetchStep e)^[n] s).payload_cursor = s.payload_cursor) := by
  refine ⟨?_, ?_, ?_⟩
  · intro h1 h2
    by_cases hst : (e s.payload_cursor).status = 200 <;> simp [fetchStep, h1, h2, hst]
  · intro h1
    simp [fetchStep, h1]
  · intro h1 h2 h3 h4 n
    induction n with
    | zero => exact ⟨h1, rfl⟩
    | succ n ih =>
      rw [Function.iterate_succ_apply']
      have hcur := ih.2
      have hmore := ih.1
      constructor
      · simp [fetchStep, hmore, hcur, h2, h3]
      · simp [fetchStep, hmore, hcur, h2, h3, h4]

/-! ## Claim C6 -/

/-- C6: create_notion_page_for_song returns True exactly when the
creation call returned status 200; the return value is independent of
the cover-update transport outcome; the cover-update result is observed
exactly when a cover-update call was issued; and a cover-update call is
issued only when the creation succeeded and the track has at least one
album-art image, using the url of the first image and the id of the
created page. -/
theorem create_page_return_contract (song : SongInfo) (cr : CreateResponse) (cs : Nat) :
    ((create_notion_page_for_song song cr cs).ret = true ↔ cr.status = 200)
    ∧ (∀ cs2 : Nat, (create_notion_page_for_song song cr cs2).ret
        = (create_notion_page_for_song song cr cs).ret)
    ∧ ((create_notion_page_for_song song cr cs).coverResult.isSome
        ↔ (create_notion_page_for_song song cr cs).coverCall.isSome)
    ∧ (∀ pid u, (create_notion_page_for_song song cr cs).coverCall = some (pid, u) →
        cr.status = 200 ∧ pid = cr.id
          ∧ ∃ img rest, song.spotify_data.track.album.images = img :: rest
              ∧ img.url = some u) := by
  by_cases h : cr.status = 200
  · rcases hs : songCoverUrl song with _ | u
    · simp [create_notion_page_for_song, h, hs]
    · by_cases hu : u = ""
      · subst hu
        simp [create_notion_page_for_song, h, hs]
      · refine ⟨by simp [create_notion_page_for_song, h, hs, hu], ?_, ?_, ?_⟩
        · intro cs2; simp [create_notion_page_for_song, h, hs, hu]
        · simp [create_notion_page_for_song, h, hs, hu]
        · intro pid v hv
          simp only [create_notion_page_for_song, h, if_true, hs, hu, if_false,
            if_neg hu] at hv
          obtain ⟨hpid, huv⟩ := Prod.mk.injEq .. ▸ Option.some.injEq .. ▸ hv
          subst hpid huv
          refine ⟨h, rfl, ?_⟩
          rcases himg : song.spotify_data.track.album.images with _ | ⟨img, rest⟩
          · rw [songCoverUrl, himg] at hs; cases hs
          · refine ⟨img, rest, rfl, ?_⟩
            rw [songCoverUrl, himg] at hs
            exact hs
  · simp [create_notion_page_for_song, h]

/-! ## Claim C7 (corrected) -/

/-- C7 counterexample: on a successful track lookup whose album carries
an images key holding the empty list, get_album_art raises an IndexError
(indexing the first element of an empty list) instead of returning the
None sentinel. -/
theorem get_album_art_empty_images_raises :
    get_album_art { status := 200, album := some { images := some [] } }
        = Except.error "IndexError"
    ∧ get_album_art { status := 200, album := some { images := some [] } }
        ≠ Except.ok none :=
  ⟨rfl, fun h => Except.noConfusion h⟩

/-- C7 amended: get_album_art returns the url of the first image when
the images list is nonempty; it returns the None sentinel, without
raising, when the album key is absent, when the images key is absent, or
when the lookup call returns a non-success response; but when the images
key is present and holds the empty list it raises an IndexError. In the
backfill loop a row whose lookup yields no image url triggers no
cover-update call and is skipped. -/
theorem get_album_art_spec (resp : TrackBody) :
    (resp.status ≠ 200 → get_album_art resp = .ok none)
    ∧ (resp.status = 200 → resp.album = none → get_album_art resp = .ok none)
    ∧ (∀ a, resp.status = 200 → resp.album = some a → a.images = none →
        get_album_art resp = .ok none)
    ∧ (∀ a img rest, resp.status = 200 → resp.album = some a →
        a.images = some (img :: rest) → get_album_art resp = .ok img.url)
    ∧ (∀ a, resp.status = 200 → resp.album = some a → a.images = some [] →
        get_album_art resp = .error "IndexError")
    ∧ (∀ page_id : String, backfillRowCalls page_id none = []) := by
  refine ⟨?_, ?_, ?_, ?_, ?_, ?_⟩
  · intro h; simp [get_album_art, h]
  · intro h ha; simp [get_album_art, h, ha]
  · intro a h ha hi; simp [get_album_art, h, ha, hi]
  · intro a img rest h ha hi; simp [get_album_art, h, ha, hi]
  · intro a h ha hi; simp [get_album_art, h, ha, hi]
  · intro page_id; rfl

/-! ## Claim C8 -/

/-- C8: extract_track_id returns the last slash-separated segment of the
URL-property value when that value is present and non-empty, and returns
the None sentinel, without raising, when the URL property is absent, when
its url field is absent, null, or the empty string. -/
theorem extract_track_id_spec (item : NotionItem) :
    (∀ p u, item.props.propURL = some p → p.purl = some (some u) → u ≠ "" →
      extract_track_id item = some (lastSplitSeg u))
    ∧ (item.props.propURL = none → extract_track_id item = none)
    ∧ (∀ p, item.props.propURL = some p → p.purl = none → extract_track_id item = none)
    ∧ (∀ p, item.props.propURL = some p → p.purl = some none →
        extract_track_id item = none)
    ∧ (∀ p, item.props.propURL = some p → p.purl = some (some "") →
        extract_track_id item = none) := by
  refine ⟨?_, ?_, ?_, ?_, ?_⟩
  · intro p u hp hq hu; simp [extract_track_id, hp, hq, hu]
  · intro h; simp [extract_track_id, h]
  · intro p hp hq; simp [extract_track_id, hp, hq]
  · intro p hp hq; simp [extract_track_id, hp, hq]
  · intro p hp hq; simp [extract_track_id, hp, hq]

/-! ## Witnesses -/

/-- witness for C1 at a concrete run with one registered and one
unregistered track. -/
theorem check_songs_partition_total_witness :
    (enrichSong [itemA] trackA).id ≠ (mkSongInfo trackB).id :=
  (check_songs_partition_total [trackA, trackB] [itemA]).2.2
    (enrichSong [itemA] trackA) (by decide) (mkSongInfo trackB) (by decide)

/-- witness for C2 at a concrete liked track of a concrete run. -/
theorem check_songs_registered_iff_witness :
    trackA ∈ [trackA, trackB]
    ∧ (mkSongInfo trackA).spotify_url
        = "https://open.spotify.com/track/" ++ trackA.track.id :=
  ⟨by decide, (check_songs_registered_iff [trackA, trackB] [itemA] trackA (by decide)).1⟩

/-- witness for the amended C3 at a concrete error on page two. -/
theorem fetch_partial_on_error_witness :
    (fetch_notion_pages ([respOk] ++ respBad :: [])).1
        = ([respOk].map NotionResp.results).flatten
    ∧ fetch_notion_pages_script ([bodyOk] ++ bodyBad :: [])
        = Except.error "KeyError: results" :=
  fetch_partial_on_error [respOk] respBad [] (by decide) (by decide)
    [bodyOk] bodyBad [] (by decide) rfl

/-- witness for C4 at a concrete malformed item and a concrete duplicated
url. -/
theorem url_index_malformed_lww_witness :
    itemEntry itemNoUrl = none
    ∧ dictLookup (notionEntries ([itemA] ++ itemADup :: []))
        "https://open.spotify.com/track/abc" = some (mkPageRef itemADup) :=
  ⟨url_index_malformed_lww.1 itemNoUrl (Or.inl rfl),
   url_index_malformed_lww.2.2 [itemA] [] itemADup
     "https://open.spotify.com/track/abc" (mkPageRef itemADup) rfl (by simp)⟩

/-- witness for C5 at a concrete two-page run of each listing. -/
theorem fetch_pagination_exact_witness :
    fetch_notion_pages ([respOk] ++ [respLast])
        = ((([respOk] ++ [respLast]).map NotionResp.results).flatten, [respOk].length + 1)
    ∧ get_liked_songs ([pageA] ++ [pageLast])
        = ((([pageA] ++ [pageLast]).map LikedPage.items).flatten, [pageA].length + 1) :=
  fetch_pagination_exact [respOk] respLast [pageA] pageLast
    (by decide) (by decide) (by decide) (by decide) rfl

/-- witness for C6 at a concrete successful creation with a cover image
whose update fails. -/
theorem create_page_return_contract_witness :
    crOK.status = 200 ∧ "p9" = crOK.id
    ∧ ∃ img rest, (mkSongInfo trackA).spotify_data.track.album.images = img :: rest
        ∧ img.url = some "u1" :=
  (create_page_return_contract (mkSongInfo trackA) crOK 500).2.2.2 "p9" "u1" (by decide)

/-- witness for the amended C7 at a concrete successful lookup. -/
theorem get_album_art_spec_witness :
    get_album_art respTrackOk = Except.ok (some "u1") :=
  (get_album_art_spec respTrackOk).2.2.2.1
    { images := some [{ url := some "u1" }] } { url := some "u1" } [] rfl rfl rfl

/-- witness for C8 at a concrete canonical url. -/
theorem extract_track_id_spec_witness :
    extract_track_id itemA = some "abc" :=
  (extract_track_id_spec itemA).1
    { ptype := some "url", purl := some (some "https://open.spotify.com/track/abc") }
    "https://open.spotify.com/track/abc" rfl rfl (by decide)

/-- witness for C9 at a concrete run where two tracks both land in
not_registered. -/
theorem check_songs_order_preserved_witness :
    [mkSongInfo trackB, mkSongInfo trackC].Sublist
      (check_songs_by_spotify_url [trackB, trackC] []).2 :=
  (check_songs_order_preserved [trackB, trackC] [] trackB trackC
    (List.Sublist.refl _)).2 (by decide) (by decide)

/-- witness for C10: three iterations against the concrete looping
endpoint keep the loop running with the original payload cursor. -/
theorem fetch_cursor_loop_witness :
    ((fetchStep loopEndpoint)^[3] loopState).has_more = true
    ∧ ((fetchStep loopEndpoint)^[3] loopState).payload_cursor = loopState.payload_cursor :=
  (fetch_cursor_loop loopEndpoint loopState).2.2 rfl rfl rfl rfl 3

end Spotify2Notion
